import Mathlib

/-!
Verification of the dump protocol implemented by `dump.py` of the
Zeal-GBC-Adapter repository.

The script drives a one-shot handshake-then-bulk-transfer exchange over a
serial channel and writes the received payload to an output file:

* open the serial device with `timeout=args.baudrate`;
* open the output file for writing (`"wb"`);
* send the single trigger byte `!` (0x21);
* `bytes = ser.read(4)`: marker `=` (0x3D), bank count (8-bit),
  bank size (16-bit little-endian);
* on a marker mismatch print the offending byte and `exit(1)`;
* `bank_num = bytes[1]`, `bank_size = bytes[2] | (bytes[3] << 8)`,
  `total = bank_num * bank_size`;
* `bytes = ser.read(total)`; `outfile.write(bytes)`; report success.

We embed the script as a pure function of the byte stream the serial
channel delivers before it times out.  A pyserial `read(n)` with a timeout
returns up to `n` bytes, so it is modelled as taking the first `n` bytes of
the remaining stream (possibly fewer when the stream is exhausted).  The
observable side effects (opening the sink, channel writes, channel reads,
sink writes) are recorded in an event trace, in program order.
-/

/-- The header marker byte, the character code of the equals sign,
`ord('=')` in `dump.py`. -/
def MARKER : Nat := 0x3D

/-- The trigger byte sent to the 8-bit computer, the character code of the
exclamation mark, `b'!'` in `dump.py`. -/
def TRIGGER : Nat := 0x21

/-- Default baud rate, `DEFAULT_BAUDRATE = 57600` in `dump.py`. -/
def DEFAULT_BAUDRATE : Nat := 57600

/-- The timeout value the script passes to `serial.Serial`: `dump.py` line
22 passes `timeout=args.baudrate`, i.e. the numeric baud rate itself,
interpreted by pyserial as seconds. -/
def serialTimeout (baudrate : Nat) : Nat := baudrate

/-- The values the script derives from a successfully parsed header:
`bank_num`, `bank_size` and `total` in `dump.py`. -/
structure DumpSummary where
  bankCount : Nat
  bankSize : Nat
  totalBytes : Nat
  deriving Repr, DecidableEq

/-- How a run of the script terminates. -/
inductive Outcome where
  /-- The script prints the success message and exits normally. -/
  | success : DumpSummary → Outcome
  /-- Marker mismatch: the script prints the offending byte and calls
  `exit(1)`. -/
  | headerError : Nat → Outcome
  /-- The script crashes with an uncaught Python `IndexError` while
  indexing a header shorter than it expects. -/
  | indexError : Outcome
  deriving Repr, DecidableEq

/-- Observable side effects of the script, in program order. -/
inductive Event where
  /-- `open(args.outfile, "wb")`: the sink is created/truncated. -/
  | openSink : Event
  /-- A byte written to the serial channel. -/
  | chanWrite : Nat → Event
  /-- A read of up to `req` bytes from the channel, returning `got`. -/
  | chanRead : (req : Nat) → (got : List Nat) → Event
  /-- Bytes written to the sink. -/
  | sinkWrite : List Nat → Event
  deriving Repr, DecidableEq

/-- Is the event a channel write? -/
def isChanWrite : Event → Bool
  | .chanWrite _ => true
  | _ => false

/-- Is the event a channel read? -/
def isChanRead : Event → Bool
  | .chanRead _ _ => true
  | _ => false

/-- The byte a channel-write event carries, if any. -/
def chanWriteByte : Event → Option Nat
  | .chanWrite b => some b
  | _ => none

/-- The data a sink-write event carries, if any. -/
def sinkWriteData : Event → Option (List Nat)
  | .sinkWrite d => some d
  | _ => none

/-- All bytes written to the channel over a trace, in order. -/
def writtenToChannel (tr : List Event) : List Nat :=
  tr.filterMap chanWriteByte

/-- All bytes the sink receives over a trace, in order. -/
def sinkBytes (tr : List Event) : List Nat :=
  (tr.filterMap sinkWriteData).flatten

/-- Number of channel reads in a trace. -/
def chanReadCount (tr : List Event) : Nat :=
  (tr.filter isChanRead).length

/-- The part of the script after the sink is opened and the trigger byte is
sent, as a function of the byte stream `input` the channel delivers.
`ser.read(4)` returns the first `min 4 input.length` bytes; the header
accesses `bytes[0]`, `bytes[1]`, `bytes[2]`, `bytes[3]` are the list
pattern, an absent index being Python's `IndexError`; on a valid marker the
script computes `bank_size = bytes[2] | (bytes[3] << 8)` and
`total = bank_num * bank_size`, reads up to `total` further bytes and
writes whatever it got to the sink, reporting success unconditionally. -/
def runCore (input : List Nat) : Outcome × List Event :=
  let headerRead := Event.chanRead 4 (input.take 4)
  match input with
  | [] => (Outcome.indexError, [headerRead])
  | b0 :: rest =>
    if b0 ≠ MARKER then
      (Outcome.headerError b0, [headerRead])
    else
      match rest with
      | b1 :: b2 :: b3 :: stream =>
        let bank_num := b1
        let bank_size := b2 ||| (b3 <<< 8)
        let total := bank_num * bank_size
        let payload := stream.take total
        (Outcome.success ⟨bank_num, bank_size, total⟩,
          [headerRead, Event.chanRead total payload, Event.sinkWrite payload])
      | _ => (Outcome.indexError, [headerRead])

/-- A whole run of `dump.py` on the byte stream `input` delivered by the
channel: the script first opens the output file, then writes the single
trigger byte `0x21` to the channel, then proceeds as `runCore`. -/
def run (input : List Nat) : Outcome × List Event :=
  let core := runCore input
  (core.1, Event.openSink :: Event.chanWrite TRIGGER :: core.2)

/-- Recombining the low byte and the shifted high byte of a 16-bit value
with bitwise or, as `dump.py` line 41 does, recovers the value. -/
theorem lor_split (s : Nat) (hs : s < 65536) :
    (s &&& 0xFF) ||| (((s >>> 8) &&& 0xFF) <<< 8) = s := by
  have h255 : (0xFF : Nat) = 2 ^ 8 - 1 := by norm_num
  have h8 : s >>> 8 < 2 ^ 8 := by
    rw [Nat.shiftRight_eq_div_pow]
    omega
  rw [h255, Nat.and_pow_two_sub_one_of_lt_two_pow h8,
    Nat.and_pow_two_sub_one_eq_mod]
  apply Nat.eq_of_testBit_eq
  intro j
  rw [Nat.testBit_or, Nat.testBit_shiftLeft]
  have h256 : (256 : Nat) = 2 ^ 8 := by norm_num
  rcases Nat.lt_or_ge j 8 with hj | hj
  · have hmod : (s % 256).testBit j = s.testBit j := by
      rw [h256, Nat.testBit_mod_two_pow]
      simp [hj]
    have hge : ¬ j ≥ 8 := by omega
    simp [hmod, hge]
  · have hhi : (s >>> 8).testBit (j - 8) = s.testBit j := by
      rw [Nat.testBit_shiftRight]
      congr 1
      omega
    have hmod : (s % 256).testBit j = false := by
      apply Nat.testBit_lt_two_pow
      calc s % 256 < 256 := Nat.mod_lt _ (by norm_num)
        _ = 2 ^ 8 := h256
        _ ≤ 2 ^ j := Nat.pow_le_pow_right (by norm_num) hj
    simp [hhi, hmod, hj]

/-- The event trace of `runCore` takes one of exactly two shapes: the
header read alone (marker mismatch or a header shorter than 4 bytes), or
the header read followed by the payload read and the sink write (a full
header with a valid marker). -/
theorem runCore_shape (input : List Nat) :
    (runCore input).2 = [Event.chanRead 4 (input.take 4)] ∨
    ∃ b1 b2 b3 stream, input = MARKER :: b1 :: b2 :: b3 :: stream ∧
      (runCore input).2
        = [Event.chanRead 4 (input.take 4),
           Event.chanRead (b1 * (b2 ||| (b3 <<< 8)))
             (stream.take (b1 * (b2 ||| (b3 <<< 8)))),
           Event.sinkWrite (stream.take (b1 * (b2 ||| (b3 <<< 8))))] := by
  match input with
  | [] => left; simp [runCore]
  | b0 :: rest =>
    by_cases hb : b0 = MARKER
    · subst hb
      match rest with
      | [] => left; simp [runCore]
      | [_] => left; simp [runCore]
      | [_, _] => left; simp [runCore]
      | b1 :: b2 :: b3 :: stream =>
        right
        exact ⟨b1, b2, b3, stream, rfl, by simp [runCore]⟩
    · left; simp [runCore, hb]

/-- C1: Header parsing — for every `bankCount ∈ [0,255]` and
`bankSize ∈ [0,65535]`, when the 4 header bytes read from the channel are
`[0x3D, bankCount, bankSize &&& 0xFF, (bankSize >>> 8) &&& 0xFF]`, the
session computes `bankSize` as the little-endian 16-bit value of bytes 2-3
and `totalBytes` exactly equal to `bankCount * bankSize`. -/
theorem C1_header_parsing (bankCount bankSize : Nat) (rest : List Nat)
    (hc : bankCount ≤ 255) (hs : bankSize ≤ 65535) :
    (run (MARKER :: bankCount :: (bankSize &&& 0xFF) ::
      ((bankSize >>> 8) &&& 0xFF) :: rest)).1
      = Outcome.success ⟨bankCount, bankSize, bankCount * bankSize⟩ := by
  have h := lor_split bankSize (by omega)
  simp [run, runCore, h]

/-- Witness for C1 at `bankCount = 7`, `bankSize = 4660`. -/
theorem C1_header_parsing_witness :
    (run (MARKER :: 7 :: (4660 &&& 0xFF) ::
      ((4660 >>> 8) &&& 0xFF) :: [])).1
      = Outcome.success ⟨7, 4660, 7 * 4660⟩ :=
  C1_header_parsing 7 4660 [] (by decide) (by decide)

/-- A channel stream in which the header announces 2 banks of 256 bytes
(512 payload bytes) but only 100 payload bytes arrive before the timeout. -/
def shortStream : List Nat := MARKER :: 2 :: 0 :: 1 :: List.replicate 100 0xAB

/-- C2: what `dump.py` actually does on a short bulk read — the announced
payload is 512 bytes, only 100 arrive, yet the script writes those 100
bytes to the sink and terminates reporting SUCCESS: it never compares the
length returned by `ser.read(total)` with `total`, so no short-read error
of any kind is produced. -/
theorem C2_short_read_reports_success :
    (run shortStream).1 = Outcome.success ⟨2, 256, 512⟩ ∧
    sinkBytes (run shortStream).2 = List.replicate 100 0xAB := by
  decide

/-- C3: Marker rejection — for every delivered stream whose first byte is
not `0x3D`, the run terminates with the header-error outcome carrying the
offending byte, and the trace shows no payload read and no sink write
after the header read. -/
theorem C3_marker_rejection (b0 : Nat) (rest : List Nat) (h : b0 ≠ MARKER) :
    (run (b0 :: rest)).1 = Outcome.headerError b0 ∧
    (run (b0 :: rest)).2
      = [Event.openSink, Event.chanWrite TRIGGER,
         Event.chanRead 4 ((b0 :: rest).take 4)] := by
  simp [run, runCore, h]

/-- Witness for C3 at first byte `0x50`. -/
theorem C3_marker_rejection_witness :
    (run (0x50 :: [1, 2, 3])).1 = Outcome.headerError 0x50 ∧
    (run (0x50 :: [1, 2, 3])).2
      = [Event.openSink, Event.chanWrite TRIGGER,
         Event.chanRead 4 ((0x50 :: [1, 2, 3]).take 4)] :=
  C3_marker_rejection 0x50 [1, 2, 3] (by decide)

/-- C4: Exact trigger — on every delivered stream, exactly one byte is
written to the channel, its value is `0x21`, and it is written before any
channel read (the only events preceding it are the sink open). -/
theorem C4_exact_trigger (input : List Nat) :
    writtenToChannel (run input).2 = [TRIGGER] ∧
    ∃ t, (run input).2 = Event.openSink :: Event.chanWrite TRIGGER :: t ∧
      ∀ e ∈ t, isChanWrite e = false := by
  rcases runCore_shape input with h | ⟨b1, b2, b3, stream, hin, h⟩ <;>
    exact ⟨by simp [run, writtenToChannel, chanWriteByte, h],
      (runCore input).2, by simp [run],
      by simp [h, isChanWrite]⟩

/-- C5: No payload before a validated header — whenever a run performs a
second channel read (the bulk payload read) or writes anything to the sink,
the channel had delivered at least 4 header bytes, the first of them was
the valid marker, and the trace shows the complete 4-byte header read
strictly before everything else that follows. -/
theorem C5_header_before_payload (input : List Nat)
    (h : 2 ≤ chanReadCount (run input).2 ∨
      ∃ d, Event.sinkWrite d ∈ (run input).2) :
    4 ≤ input.length ∧ input.head? = some MARKER ∧
    ∃ tail, (run input).2
      = Event.openSink :: Event.chanWrite TRIGGER ::
        Event.chanRead 4 (input.take 4) :: tail := by
  rcases runCore_shape input with hs | ⟨b1, b2, b3, stream, hin, hs⟩
  · exfalso
    rcases h with h | ⟨d, hd⟩
    · simp [run, chanReadCount, isChanRead, hs] at h
    · simp [run, hs] at hd
  · subst hin
    refine ⟨by simp, by simp, ?_⟩
    exact ⟨[Event.chanRead (b1 * (b2 ||| (b3 <<< 8)))
        (stream.take (b1 * (b2 ||| (b3 <<< 8)))),
      Event.sinkWrite (stream.take (b1 * (b2 ||| (b3 <<< 8))))],
      by simp [run, hs]⟩

/-- Witness for C5 on the stream `[0x3D, 1, 1, 0, 9]` (one bank of one
byte, payload `[9]`). -/
theorem C5_header_before_payload_witness :
    4 ≤ ([MARKER, 1, 1, 0, 9] : List Nat).length ∧
    ([MARKER, 1, 1, 0, 9] : List Nat).head? = some MARKER ∧
    ∃ tail, (run [MARKER, 1, 1, 0, 9]).2
      = Event.openSink :: Event.chanWrite TRIGGER ::
        Event.chanRead 4 (([MARKER, 1, 1, 0, 9] : List Nat).take 4) :: tail :=
  C5_header_before_payload [MARKER, 1, 1, 0, 9] (Or.inl (by decide))

/-- C6: what `dump.py` actually does when fewer than 4 header bytes
arrive — it indexes the short `bytes` object without checking its length
and crashes with an uncaught Python `IndexError` (here on the empty
delivery and on a 2-byte delivery), instead of failing with a classified
short-read error carrying expected and received counts. -/
theorem C6_short_header_crashes :
    (run []).1 = Outcome.indexError ∧
    (run [MARKER, 5]).1 = Outcome.indexError ∧
    (run [MARKER, 5]).2
      = [Event.openSink, Event.chanWrite TRIGGER,
         Event.chanRead 4 [MARKER, 5]] := by
  decide

/-- C7: Zero-size transfer — on a valid-marker header with
`bankCount = 0` or with both size bytes zero (in particular the header
`[0x3D, 0, 0, 0]`), `totalBytes` is 0, the run succeeds with the summary
holding the parsed fields and `totalBytes = 0`, and the sink receives zero
bytes; no error is reported. -/
theorem C7_zero_size (b1 b2 b3 : Nat) (rest : List Nat)
    (h : b1 = 0 ∨ b2 ||| (b3 <<< 8) = 0) :
    (run (MARKER :: b1 :: b2 :: b3 :: rest)).1
      = Outcome.success ⟨b1, b2 ||| (b3 <<< 8), 0⟩ ∧
    sinkBytes (run (MARKER :: b1 :: b2 :: b3 :: rest)).2 = [] := by
  have htot : b1 * (b2 ||| (b3 <<< 8)) = 0 := by
    rcases h with h | h <;> simp [h]
  simp [run, runCore, sinkBytes, sinkWriteData, htot]

/-- Witness for C7 on the header `[0x3D, 0, 0, 0]`, yielding the summary
with all three fields zero. -/
theorem C7_zero_size_witness :
    (run (MARKER :: 0 :: 0 :: 0 :: [])).1
      = Outcome.success ⟨0, 0 ||| (0 <<< 8), 0⟩ ∧
    sinkBytes (run (MARKER :: 0 :: 0 :: 0 :: [])).2 = [] :=
  C7_zero_size 0 0 0 [] (Or.inl rfl)

/-- The 512 deterministic payload bytes of the end-to-end example:
`0x00..0xFF` repeated twice. -/
def examplePayload : List Nat := List.range 256 ++ List.range 256

set_option maxRecDepth 40000 in
/-- C8: End-to-end example — on the stream starting with header
`[0x3D, 0x02, 0x00, 0x01]` (2 banks of 256 bytes) followed by the 512
payload bytes, the run writes `0x21` to the channel, the sink receives
exactly those 512 bytes in their original order, and the run succeeds with
summary `bankCount = 2`, `bankSize = 256`, `totalBytes = 512`. -/
theorem C8_end_to_end :
    run (MARKER :: 2 :: 0 :: 1 :: examplePayload)
      = (Outcome.success ⟨2, 256, 512⟩,
         [Event.openSink, Event.chanWrite TRIGGER,
          Event.chanRead 4 [MARKER, 2, 0, 1],
          Event.chanRead 512 examplePayload,
          Event.sinkWrite examplePayload]) ∧
    sinkBytes (run (MARKER :: 2 :: 0 :: 1 :: examplePayload)).2
      = examplePayload ∧
    writtenToChannel (run (MARKER :: 2 :: 0 :: 1 :: examplePayload)).2
      = [TRIGGER] := by
  decide

/-- C9: the read timeout handed to the serial port is the numeric
baud-rate value itself interpreted as seconds — 57600 seconds at the
default baud rate — not approximately one second as the adjacent comment
suggests. -/
theorem C9_timeout_is_baudrate :
    (∀ b, serialTimeout b = b) ∧
    serialTimeout DEFAULT_BAUDRATE = 57600 ∧
    serialTimeout DEFAULT_BAUDRATE ≠ 1 := by
  exact ⟨fun b => rfl, rfl, by decide⟩

/-- C10: the output sink is opened (created or truncated) as the very
first observable action of every run — before the trigger byte is written
and before any channel read — so every run, including those failing at the
header stage, leaves the output file in existence; the open happens
exactly once, and the trigger write occurs after it. -/
theorem C10_sink_opened_first (input : List Nat) :
    ∃ t, (run input).2 = Event.openSink :: t ∧
      (∀ e ∈ t, e ≠ Event.openSink) ∧ Event.chanWrite TRIGGER ∈ t := by
  rcases runCore_shape input with hs | ⟨b1, b2, b3, stream, hin, hs⟩ <;>
    exact ⟨Event.chanWrite TRIGGER :: (runCore input).2, rfl,
      by simp [hs], by simp⟩
